import Mathlib

set_option autoImplicit false

namespace SportsPuff

/-! # Shallow embedding of the sportspuff-api adaptive polling core

This file embeds the rate-limited adaptive polling engine of the
repository (the `APITracker` rate budget, the `AdaptivePollingManager`
interval policy and window gate, and the `LivePoller` orchestration) as
executable Lean definitions, and proves the specification claims about
them.  Wall-clock timestamps are modelled as integers (seconds); calendar
dates as integers (days).
-/

/-! ## APITracker (src/utils/api_tracker.py)

The tracker keeps, per league, a deque of request timestamps ordered
oldest first.  `_cleanup_old_requests` treats each league's deque
independently, so one league's deque is modelled as a `List Int` with the
oldest element at the head.
-/

/-- `APITracker._cleanup_old_requests`, restricted to one league's deque:
pop elements from the front while they are strictly older than `now - 60`. -/
def cleanup_old_requests (now : Int) (history : List Int) : List Int :=
  history.dropWhile (fun ts => ts < now - 60)

/-- `APITracker.can_make_request`: purge old timestamps for every league,
then allow iff the league's remaining count is strictly below the
per-league limit.  Returns the answer together with the mutated deque. -/
def can_make_request (maxRequests : Nat) (now : Int) (history : List Int) :
    Bool × List Int :=
  let h := cleanup_old_requests now history
  (decide (h.length < maxRequests), h)

/-- `APITracker.record_request`, effect on the league's deque: append `now`.
(The `success` / `error_message` arguments only reach the debug log and the
daily counter; they are modelled in the poller state below.) -/
def record_request (now : Int) (history : List Int) : List Int :=
  history ++ [now]

/-- The guarded protocol of the rate-budget claim: before every
`record_request` a `can_make_request` at the same timestamp, recording only
when it returned `true`. -/
def guardedRun (maxRequests : Nat) : List Int → List Int → List Int
  | [], h => h
  | t :: ts, h =>
    let c := can_make_request maxRequests t h
    guardedRun maxRequests ts (if c.1 then record_request t c.2 else c.2)

theorem length_cleanup_le (now : Int) (history : List Int) :
    (cleanup_old_requests now history).length ≤ history.length := by
  induction history with
  | nil => simp [cleanup_old_requests]
  | cons a l ih =>
    by_cases ha : a < now - 60
    · calc (cleanup_old_requests now (a :: l)).length
          = (cleanup_old_requests now l).length := by
            simp [cleanup_old_requests, List.dropWhile, ha]
        _ ≤ l.length := ih
        _ ≤ (a :: l).length := by simp
    · simp [cleanup_old_requests, List.dropWhile, ha]

theorem guardedRun_length_le (maxRequests : Nat) (ts : List Int)
    (h : List Int) (hh : h.length ≤ maxRequests) :
    (guardedRun maxRequests ts h).length ≤ maxRequests := by
  induction ts generalizing h with
  | nil => simpa [guardedRun] using hh
  | cons t ts ih =>
    have hc : (cleanup_old_requests t h).length ≤ h.length :=
      length_cleanup_le t h
    simp only [guardedRun, can_make_request]
    split
    · next hcond =>
      apply ih
      simp only [decide_eq_true_eq] at hcond
      simpa [record_request] using hcond
    · exact ih _ (le_trans hc hh)

/-- C1: Sliding-window rate budget.  Under the guarded protocol (each
record immediately preceded by a successful `can_make_request` at the same
time), the league's deque never exceeds `maxRequests` entries, and in
particular at any instant `t` the trailing-window count after a purge is
also bounded; `can_make_request` purges then compares the count strictly
against the limit; and with `maxRequestsPerMinute = 2` and two requests
recorded at `t = 0`, `can_make_request` answers `false` at `t = 0` and
`true` at `t = 61`. -/
theorem rate_budget_sliding_window :
    (∀ (maxRequests : Nat) (times : List Int) (t : Int),
        (guardedRun maxRequests times []).length ≤ maxRequests ∧
        (cleanup_old_requests t (guardedRun maxRequests times [])).length ≤
          maxRequests) ∧
    (∀ (maxRequests : Nat) (now : Int) (history : List Int),
        (can_make_request maxRequests now history).1 =
          decide ((cleanup_old_requests now history).length < maxRequests)) ∧
    (can_make_request 2 0 (record_request 0 (record_request 0 []))).1
        = false ∧
    (can_make_request 2 61 (record_request 0 (record_request 0 []))).1
        = true := by
  refine ⟨fun maxRequests times t => ?_, fun _ _ _ => rfl, by decide, by decide⟩
  have hbase : (guardedRun maxRequests times []).length ≤ maxRequests :=
    guardedRun_length_le maxRequests times [] (by simp)
  exact ⟨hbase, le_trans (length_cleanup_le _ _) hbase⟩

/-! ## Settings (src/config.py) -/

/-- The polling-relevant fields of `Settings`, with the source defaults. -/
structure Settings where
  default_poll_interval : Int := 120
  close_game_poll_interval : Int := 60
  scheduled_game_poll_interval : Int := 300
  nba_close_game_threshold : Int := 10
  nfl_close_game_threshold : Int := 10
  nhl_close_game_threshold : Int := 2
  mlb_close_game_threshold : Int := 3
  wnba_close_game_threshold : Int := 10
  nba_max_requests_per_minute : Nat := 60
  mlb_max_requests_per_minute : Nat := 30
  nhl_max_requests_per_minute : Nat := 60
  nfl_max_requests_per_minute : Nat := 30
  wnba_max_requests_per_minute : Nat := 60
  deriving Repr

/-- `str.upper()` on ASCII league identifiers, character by character. -/
def strUpper (s : String) : String := String.mk (s.data.map Char.toUpper)

/-- `Settings.get_close_game_threshold`: dictionary lookup on the
upper-cased league name, defaulting to the NBA threshold. -/
def Settings.get_close_game_threshold (s : Settings) (league : String) : Int :=
  let u := strUpper league
  if u == "NBA" then s.nba_close_game_threshold
  else if u == "NFL" then s.nfl_close_game_threshold
  else if u == "NHL" then s.nhl_close_game_threshold
  else if u == "MLB" then s.mlb_close_game_threshold
  else if u == "WNBA" then s.wnba_close_game_threshold
  else s.nba_close_game_threshold

/-- `Settings.get_max_requests_per_minute`: dictionary lookup on the
upper-cased league name, defaulting to 60. -/
def Settings.get_max_requests_per_minute (s : Settings) (league : String) : Nat :=
  let u := strUpper league
  if u == "NBA" then s.nba_max_requests_per_minute
  else if u == "MLB" then s.mlb_max_requests_per_minute
  else if u == "NHL" then s.nhl_max_requests_per_minute
  else if u == "NFL" then s.nfl_max_requests_per_minute
  else if u == "WNBA" then s.wnba_max_requests_per_minute
  else 60

/-- The `Settings` instance with every field at its source default. -/
def defaultSettings : Settings := {}

/-! ## Game rows (src/models.py, class Game)

Only the columns read or written by the polling core are modelled.
`game_date` is a calendar day number; `game_date`, `game_status` and
`is_final` are non-nullable columns, the score totals are nullable.
-/

structure Game where
  league : String
  game_id : String
  game_date : Int
  game_status : String
  home_score_total : Option Int
  visitor_score_total : Option Int
  is_final : Bool
  deriving Repr, DecidableEq

/-! ## AdaptivePollingManager.determine_poll_interval
(src/utils/adaptive_polling.py) -/

/-- The `active_games` query of `determine_poll_interval`: games of the
league dated yesterday or today that are not final. -/
def activeGames (db : List Game) (league : String) (today : Int) : List Game :=
  db.filter (fun g =>
    g.league == league && decide (today - 1 ≤ g.game_date) &&
      decide (g.game_date ≤ today) && g.is_final == false)

/-- The close-game test of the `close_games` loop: in progress, both score
totals present, and absolute differential at most the league threshold. -/
def isCloseGame (s : Settings) (league : String) (g : Game) : Bool :=
  g.game_status == "in_progress" &&
    match g.home_score_total, g.visitor_score_total with
    | some h, some v => decide (|h - v| ≤ s.get_close_game_threshold league)
    | _, _ => false

/-- `AdaptivePollingManager.determine_poll_interval`.  `nowHour` is the
current wall-clock hour (`datetime.now().hour`), used only by the NFL
time-of-day override.  `none` means stop polling. -/
def determine_poll_interval (s : Settings) (db : List Game) (today : Int)
    (nowHour : Nat) (league : String) : Option Int :=
  let active_games := activeGames db league today
  if active_games.isEmpty then
    if league == "NFL" then some 3600 else none
  else
    let all_final := active_games.all (fun g => g.is_final)
    if all_final then
      if league == "NFL" then some 3600 else none
    else
      let in_progress_games :=
        active_games.filter (fun g => g.game_status == "in_progress")
      if league == "NFL" then
        if 23 ≤ nowHour ∨ nowHour < 7 then some 3600 else some 60
      else
        let close_games := active_games.filter (isCloseGame s league)
        if close_games.isEmpty = false then some s.close_game_poll_interval
        else if in_progress_games.isEmpty = false then
          if league == "NBA" then some s.close_game_poll_interval
          else some s.default_poll_interval
        else some s.scheduled_game_poll_interval

/-- The accumulator loop of `LivePoller._get_next_poll_interval`
(src/services/live_poller.py): fold over the leagues carrying
`has_active_games` and `min_interval`. -/
def next_interval_loop (s : Settings) (db : List Game) (today : Int)
    (nowHour : Nat) : List String → Bool → Option Int → Bool × Option Int
  | [], hasActive, minInterval => (hasActive, minInterval)
  | league :: rest, hasActive, minInterval =>
    match determine_poll_interval s db today nowHour league with
    | none => next_interval_loop s db today nowHour rest hasActive minInterval
    | some i =>
      next_interval_loop s db today nowHour rest true
        (match minInterval with
         | none => some i
         | some m => if i < m then some i else some m)

/-- `LivePoller._get_next_poll_interval`: the minimum of all non-`none`
league intervals, or `none` when no league has an interval. -/
def get_next_poll_interval (s : Settings) (db : List Game) (today : Int)
    (nowHour : Nat) (leagues : List String) : Option Int :=
  let r := next_interval_loop s db today nowHour leagues false none
  if r.1 then r.2 else none

/-! ## Interval policy lemmas -/

theorem mem_activeGames_is_final_false {db : List Game} {league : String}
    {today : Int} {g : Game} (hg : g ∈ activeGames db league today) :
    g.is_final = false := by
  have h := List.of_mem_filter hg
  simp only [Bool.and_eq_true, beq_iff_eq] at h
  exact h.2

theorem activeGames_append (db extra : List Game) (league : String)
    (today : Int) :
    activeGames (db ++ extra) league today =
      activeGames db league today ++ activeGames extra league today :=
  List.filter_append _ _

theorem activeGames_all_final_false {db : List Game} {league : String}
    {today : Int} {g : Game} (hg : g ∈ activeGames db league today) :
    (activeGames db league today).all (fun x => x.is_final) = false := by
  cases hb : (activeGames db league today).all (fun x => x.is_final) with
  | false => rfl
  | true =>
    exfalso
    have hf := List.all_eq_true.mp hb g hg
    rw [mem_activeGames_is_final_false hg] at hf
    exact Bool.false_ne_true hf

theorem determine_close_branch (s : Settings) (db : List Game) (today : Int)
    (nowHour : Nat) (league : String) (hnfl : league ≠ "NFL") (g : Game)
    (hg : g ∈ activeGames db league today)
    (hclose : isCloseGame s league g = true) :
    determine_poll_interval s db today nowHour league =
      some s.close_game_poll_interval := by
  have hne : activeGames db league today ≠ [] := List.ne_nil_of_mem hg
  have hisEmpty : (activeGames db league today).isEmpty = false := by
    simpa [List.isEmpty_iff] using hne
  have hallfinal := activeGames_all_final_false hg
  have hbnfl : (league == "NFL") = false := by simpa [beq_iff_eq] using hnfl
  have hcg : g ∈ (activeGames db league today).filter (isCloseGame s league) :=
    List.mem_filter.mpr ⟨hg, hclose⟩
  have hcloseEmpty :
      ((activeGames db league today).filter (isCloseGame s league)).isEmpty
        = false := by
    simpa [List.isEmpty_iff] using List.ne_nil_of_mem hcg
  simp [determine_poll_interval, hisEmpty, hallfinal, hbnfl, hcloseEmpty]

/-- C9: When a league has no non-final games dated today or yesterday
(`activeGames` is empty, in particular once every tracked game is final),
`determine_poll_interval` returns the hourly heartbeat `3600` for NFL and
`none` (stop) for every other league — never a close-game, in-progress or
pre-game interval. -/
theorem interval_stop_or_heartbeat (s : Settings) (db : List Game)
    (today : Int) (nowHour : Nat) (league : String)
    (hempty : activeGames db league today = []) :
    determine_poll_interval s db today nowHour league =
      if league = "NFL" then some 3600 else none := by
  by_cases h : league = "NFL"
  · subst h
    simp [determine_poll_interval, hempty]
  · simp [determine_poll_interval, hempty, h]

/-- Witness for `interval_stop_or_heartbeat`: a store whose only MLB game
is final yields `none` for MLB, and an empty store yields `some 3600` for
NFL. -/
theorem interval_stop_or_heartbeat_witness :
    determine_poll_interval defaultSettings
        [⟨"MLB", "g1", 0, "final", some 4, some 2, true⟩] 0 12 "MLB"
      = none ∧
    determine_poll_interval defaultSettings [] 0 12 "NFL" = some 3600 := by
  constructor
  · have h := interval_stop_or_heartbeat defaultSettings
      [⟨"MLB", "g1", 0, "final", some 4, some 2, true⟩] 0 12 "MLB" (by decide)
    simpa using h
  · have h := interval_stop_or_heartbeat defaultSettings [] 0 12 "NFL" rfl
    simpa using h

theorem determine_NFL_cases (s : Settings) (db : List Game) (today : Int)
    (nowHour : Nat) :
    determine_poll_interval s db today nowHour "NFL" = some 3600 ∨
    determine_poll_interval s db today nowHour "NFL" = some 60 := by
  by_cases h1 : (activeGames db "NFL" today).isEmpty = true
  · left; simp [determine_poll_interval, h1]
  · by_cases h2 : (activeGames db "NFL" today).all (fun g => g.is_final) = true
    · left; simp [determine_poll_interval, h1, h2]
    · by_cases h3 : 23 ≤ nowHour ∨ nowHour < 7
      · left; simp [determine_poll_interval, h1, h2, h3]
      · right; simp [determine_poll_interval, h1, h2, h3]

theorem next_interval_loop_true (s : Settings) (db : List Game) (today : Int)
    (nowHour : Nat) :
    ∀ (leagues : List String) (minI : Option Int),
      (next_interval_loop s db today nowHour leagues true minI).1 = true := by
  intro leagues
  induction leagues with
  | nil => intro minI; rfl
  | cons l rest ih =>
    intro minI
    cases hdet : determine_poll_interval s db today nowHour l with
    | none => simpa [next_interval_loop, hdet] using ih minI
    | some i => simpa [next_interval_loop, hdet] using ih _

theorem min_update_isSome (i : Int) (minI : Option Int) :
    (match minI with
     | none => some i
     | some m => if i < m then some i else some m).isSome = true := by
  cases minI with
  | none => rfl
  | some m => by_cases hlt : i < m <;> simp [hlt]

theorem next_interval_loop_isSome (s : Settings) (db : List Game)
    (today : Int) (nowHour : Nat) :
    ∀ (leagues : List String) (hasActive : Bool) (minI : Option Int),
      minI.isSome = true →
      (next_interval_loop s db today nowHour leagues hasActive minI).2.isSome
        = true := by
  intro leagues
  induction leagues with
  | nil => intro hasActive minI h; simpa [next_interval_loop] using h
  | cons l rest ih =>
    intro hasActive minI h
    cases hdet : determine_poll_interval s db today nowHour l with
    | none => simpa [next_interval_loop, hdet] using ih hasActive minI h
    | some i =>
      simp only [next_interval_loop, hdet]
      exact ih true _ (min_update_isSome i minI)

theorem next_interval_loop_nfl (s : Settings) (db : List Game) (today : Int)
    (nowHour : Nat) :
    ∀ (leagues : List String) (hasActive : Bool) (minI : Option Int),
      "NFL" ∈ leagues →
      (next_interval_loop s db today nowHour leagues hasActive minI).1 = true ∧
      (next_interval_loop s db today nowHour leagues hasActive minI).2.isSome
        = true := by
  intro leagues
  induction leagues with
  | nil => intro _ _ h; cases h
  | cons l rest ih =>
    intro hasActive minI hmem
    rcases List.mem_cons.mp hmem with heq | hmem2
    · have hl : l = "NFL" := heq.symm
      subst hl
      rcases determine_NFL_cases s db today nowHour with h | h <;>
        · simp only [next_interval_loop, h]
          exact ⟨next_interval_loop_true s db today nowHour rest _,
            next_interval_loop_isSome s db today nowHour rest true _
              (min_update_isSome _ minI)⟩
    · cases hdet : determine_poll_interval s db today nowHour l with
      | none => simpa [next_interval_loop, hdet] using ih hasActive minI hmem2
      | some i => simpa [next_interval_loop, hdet] using ih true _ hmem2

/-- C10: `determine_poll_interval` for NFL always yields `3600` or `60`
(never `none`), and consequently whenever NFL is among the polled leagues
the orchestrator's computed minimum next interval
(`_get_next_poll_interval`) is never `none`, so the polling loop cannot
exit through its no-active-games branch. -/
theorem nfl_never_stops :
    ∀ (s : Settings) (db : List Game) (today : Int) (nowHour : Nat),
      (determine_poll_interval s db today nowHour "NFL" = some 3600 ∨
       determine_poll_interval s db today nowHour "NFL" = some 60) ∧
      ∀ leagues : List String, "NFL" ∈ leagues →
        (get_next_poll_interval s db today nowHour leagues).isSome = true := by
  intro s db today nowHour
  refine ⟨determine_NFL_cases s db today nowHour, fun leagues hmem => ?_⟩
  have h := next_interval_loop_nfl s db today nowHour leagues false none hmem
  simp [get_next_poll_interval, h.1, h.2]

/-- Witness for `nfl_never_stops` at a concrete league list and store. -/
theorem nfl_never_stops_witness :
    (get_next_poll_interval defaultSettings [] 0 12 ["NBA", "NFL"]).isSome
      = true :=
  (nfl_never_stops defaultSettings [] 0 12).2 ["NBA", "NFL"] (by decide)

/-- C5: Close-game priority is monotone.  For a league without the NFL
time-of-day override, one active in-progress game within the league's
threshold forces the close-game interval, and appending any number of
in-progress blowout games to the store does not change the result. -/
theorem close_game_priority_monotone (s : Settings) (db : List Game)
    (today : Int) (nowHour : Nat) (league : String) (g : Game)
    (hnfl : league ≠ "NFL")
    (hg : g ∈ activeGames db league today)
    (hclose : isCloseGame s league g = true) :
    determine_poll_interval s db today nowHour league =
      some s.close_game_poll_interval ∧
    ∀ extra : List Game,
      (∀ b ∈ extra, b.game_status = "in_progress" ∧
          isCloseGame s league b = false) →
      determine_poll_interval s (db ++ extra) today nowHour league =
        some s.close_game_poll_interval := by
  refine ⟨determine_close_branch s db today nowHour league hnfl g hg hclose,
    fun extra _ => ?_⟩
  refine determine_close_branch s (db ++ extra) today nowHour league hnfl g
    ?_ hclose
  rw [activeGames_append]
  exact List.mem_append_left _ hg

/-- Witness for `close_game_priority_monotone`: the spec's NBA scenario,
game A at 50–48 (close) and blowout B at 90–60. -/
theorem close_game_priority_monotone_witness :
    determine_poll_interval defaultSettings
        [⟨"NBA", "A", 0, "in_progress", some 50, some 48, false⟩] 0 12 "NBA"
      = some defaultSettings.close_game_poll_interval ∧
    determine_poll_interval defaultSettings
        ([⟨"NBA", "A", 0, "in_progress", some 50, some 48, false⟩] ++
          [⟨"NBA", "B", 0, "in_progress", some 90, some 60, false⟩]) 0 12 "NBA"
      = some defaultSettings.close_game_poll_interval := by
  have h := close_game_priority_monotone defaultSettings
    [⟨"NBA", "A", 0, "in_progress", some 50, some 48, false⟩] 0 12 "NBA"
    ⟨"NBA", "A", 0, "in_progress", some 50, some 48, false⟩
    (by decide) (by decide) (by decide)
  exact ⟨h.1, h.2 [⟨"NBA", "B", 0, "in_progress", some 90, some 60, false⟩]
    (by decide)⟩

/-- C3 counterexample: for NBA, an in-progress blowout (90–60, threshold
10, not close) yields the close-game interval 60, not the default
in-progress interval 120 — refuting the claim that every league without a
time-of-day override returns the default interval in that situation. -/
theorem nba_blowout_counterexample :
    isCloseGame defaultSettings "NBA"
        ⟨"NBA", "B", 0, "in_progress", some 90, some 60, false⟩ = false ∧
    determine_poll_interval defaultSettings
        [⟨"NBA", "B", 0, "in_progress", some 90, some 60, false⟩] 0 12 "NBA"
      = some defaultSettings.close_game_poll_interval ∧
    defaultSettings.close_game_poll_interval ≠
      defaultSettings.default_poll_interval :=
  ⟨by decide, by decide, by decide⟩

/-- C3 (amended): for every league other than NFL (time-of-day override)
and NBA (special-cased to the close-game interval while games are in
progress), if some active game is in progress and no active game passes
the close-game test, `determine_poll_interval` returns the default
in-progress interval. -/
theorem default_interval_for_plain_league (s : Settings) (db : List Game)
    (today : Int) (nowHour : Nat) (league : String)
    (hnfl : league ≠ "NFL") (hnba : league ≠ "NBA")
    (hip : (activeGames db league today).filter
        (fun g => g.game_status == "in_progress") ≠ [])
    (hnoclose : (activeGames db league today).filter (isCloseGame s league)
        = []) :
    determine_poll_interval s db today nowHour league =
      some s.default_poll_interval := by
  obtain ⟨g, hgmem⟩ := List.exists_mem_of_ne_nil _ hip
  have hg : g ∈ activeGames db league today := (List.mem_filter.mp hgmem).1
  have hisEmpty : (activeGames db league today).isEmpty = false := by
    simpa [List.isEmpty_iff] using List.ne_nil_of_mem hg
  have hallfinal := activeGames_all_final_false hg
  have hbnfl : (league == "NFL") = false := by simpa [beq_iff_eq] using hnfl
  have hbnba : (league == "NBA") = false := by simpa [beq_iff_eq] using hnba
  have hipEmpty : ((activeGames db league today).filter
      (fun g => g.game_status == "in_progress")).isEmpty = false := by
    simpa [List.isEmpty_iff] using hip
  simp [determine_poll_interval, hisEmpty, hallfinal, hbnfl, hbnba, hipEmpty,
    hnoclose]

/-- Witness for `default_interval_for_plain_league`: an NHL blowout in
progress (9–1, threshold 2) polls at the default interval. -/
theorem default_interval_for_plain_league_witness :
    determine_poll_interval defaultSettings
        [⟨"NHL", "C", 0, "in_progress", some 9, some 1, false⟩] 0 12 "NHL"
      = some defaultSettings.default_poll_interval :=
  default_interval_for_plain_league defaultSettings
    [⟨"NHL", "C", 0, "in_progress", some 9, some 1, false⟩] 0 12 "NHL"
    (by decide) (by decide) (by decide) (by decide)

/-! ## PollingWindowGate (AdaptivePollingManager.should_poll_now)

The gate parses each configured `HH:MM-HH:MM` string with
`str.split('-')` and `datetime.strptime(..., "%H:%M")`, skipping entries
that raise `ValueError`.  String operations are modelled on the
character-list level so that everything evaluates.  Times of day are
seconds since midnight (Python compares `time` objects field by field,
which on second-resolution values is exactly numeric comparison).
-/

/-- Python `str.split(sep)` for a single-character separator: split on
every occurrence, keeping empty parts. -/
def splitOnChar (sep : Char) : List Char → List (List Char)
  | [] => [[]]
  | c :: cs =>
    let r := splitOnChar sep cs
    if c == sep then [] :: r
    else
      match r with
      | [] => [[c]]
      | h :: t => (c :: h) :: t

/-- Python `str.strip()`: drop leading and trailing whitespace. -/
def stripChars (cs : List Char) : List Char :=
  ((cs.dropWhile Char.isWhitespace).reverse.dropWhile Char.isWhitespace).reverse

/-- Numeric value of a decimal digit character. -/
def digitVal (c : Char) : Nat := c.toNat - 48

/-- The `%H` field of `strptime`: per CPython's `TimeRE`, the regex
alternation `2[0-3]`, then `[0-1][0-9]`, then a single digit. -/
def parseHourField : List Char → Option (Nat × List Char)
  | [] => none
  | [c1] => if c1.isDigit then some (digitVal c1, []) else none
  | c1 :: c2 :: rest =>
    if c1 == '2' && c2.isDigit && decide (digitVal c2 ≤ 3) then
      some (20 + digitVal c2, rest)
    else if (c1 == '0' || c1 == '1') && c2.isDigit then
      some (10 * digitVal c1 + digitVal c2, rest)
    else if c1.isDigit then some (digitVal c1, c2 :: rest)
    else none

/-- The `%M` field of `strptime`: the regex alternation `[0-5][0-9]`,
then a single digit. -/
def parseMinuteField : List Char → Option (Nat × List Char)
  | [] => none
  | [c1] => if c1.isDigit then some (digitVal c1, []) else none
  | c1 :: c2 :: rest =>
    if c1.isDigit && decide (digitVal c1 ≤ 5) && c2.isDigit then
      some (10 * digitVal c1 + digitVal c2, rest)
    else if c1.isDigit then some (digitVal c1, c2 :: rest)
    else none

/-- `datetime.strptime(part.strip(), "%H:%M")` as seconds since midnight;
`none` models the `ValueError` raised when the format does not match or
trailing characters remain. -/
def parseTimeHM (cs : List Char) : Option Nat :=
  match parseHourField (stripChars cs) with
  | some (h, ':' :: rest) =>
    match parseMinuteField rest with
    | some (m, []) => some (3600 * h + 60 * m)
    | _ => none
  | _ => none

/-- One configured `HH:MM-HH:MM` range: `split('-')` must give exactly
two parts (the tuple unpacking raises `ValueError` otherwise) and both
parts must parse. -/
def parsePollingRange (s : String) : Option (Nat × Nat) :=
  match splitOnChar '-' s.data with
  | [a, b] =>
    match parseTimeHM a, parseTimeHM b with
    | some st, some en => some (st, en)
    | _, _ => none
  | _ => none

/-- The per-range comparison of `should_poll_now`: ranges whose start is
after their end wrap past midnight. -/
def rangeMatches (now startT endT : Nat) : Bool :=
  if startT > endT then decide (startT ≤ now) || decide (now ≤ endT)
  else decide (startT ≤ now) && decide (now ≤ endT)

/-- `AdaptivePollingManager.should_poll_now`: true iff some configured
range parses and matches the current time of day. -/
def should_poll_now (ranges : List String) (now : Nat) : Bool :=
  ranges.any (fun r =>
    match parsePollingRange r with
    | none => false
    | some (st, en) => rangeMatches now st en)

/-- C6: Polling-window matching.  A parsed range with `start ≤ end`
matches exactly when `start ≤ now ≤ end` and an overnight range matches
exactly when `now ≥ start ∨ now ≤ end`; the gate answers true iff some
configured range parses and matches; for `23:00-02:00` the times 23:30,
00:15 and 01:59 are inside while 02:01 and 12:00 are outside; and a
malformed range string is skipped without affecting the result. -/
theorem polling_window_gate :
    (∀ now startT endT : Nat,
        rangeMatches now startT endT = true ↔
          (if startT ≤ endT then startT ≤ now ∧ now ≤ endT
           else now ≥ startT ∨ now ≤ endT)) ∧
    (∀ (ranges : List String) (now : Nat),
        should_poll_now ranges now = true ↔
          ∃ r ∈ ranges, ∃ st en, parsePollingRange r = some (st, en) ∧
            rangeMatches now st en = true) ∧
    parsePollingRange "23:00-02:00" = some (82800, 7200) ∧
    should_poll_now ["23:00-02:00"] (23 * 3600 + 30 * 60) = true ∧
    should_poll_now ["23:00-02:00"] (0 * 3600 + 15 * 60) = true ∧
    should_poll_now ["23:00-02:00"] (1 * 3600 + 59 * 60) = true ∧
    should_poll_now ["23:00-02:00"] (2 * 3600 + 1 * 60) = false ∧
    should_poll_now ["23:00-02:00"] (12 * 3600) = false ∧
    parsePollingRange "invalid hours" = none ∧
    (∀ now : Nat, should_poll_now ["invalid hours", "23:00-02:00"] now =
        should_poll_now ["23:00-02:00"] now) := by
  refine ⟨?_, ?_, by decide, by decide, by decide, by decide, by decide,
    by decide, by decide, fun now => rfl⟩
  · intro now startT endT
    by_cases h : endT < startT
    · have h2 : ¬ startT ≤ endT := not_le.mpr h
      simp [rangeMatches, h, h2, ge_iff_le]
    · have h2 : startT ≤ endT := not_lt.mp h
      simp [rangeMatches, h, h2]
  · intro ranges now
    rw [should_poll_now, List.any_eq_true]
    constructor
    · rintro ⟨r, hr, hp⟩
      refine ⟨r, hr, ?_⟩
      cases hpr : parsePollingRange r with
      | none => rw [hpr] at hp; exact absurd hp (by simp)
      | some se =>
        obtain ⟨st, en⟩ := se
        rw [hpr] at hp
        exact ⟨st, en, rfl, hp⟩
    · rintro ⟨r, hr, st, en, hpr, hm⟩
      exact ⟨r, hr, by simp [hpr, hm]⟩

/-! ## LivePoller (src/services/live_poller.py)

The poller's side effects are made explicit: the state carries the game
store, the per-league request deques and daily counters of the shared
`api_tracker`, the sequence of `record_request` invocations (with the
`success` flag and `error_message` they were given), and the trace of
collector invocations.  A collector's outcome for this cycle is a value
`Except String (List GameData)`: `error` is a raised exception, `ok` the
returned list of live game dictionaries.
-/

/-- One live game dictionary as produced by a collector's
`get_live_scores` (the keys the reconciliation step touches; `game_id`,
`game_date`, `game_status` and `is_final` are always present in collector
output, the score totals may be `None`). -/
structure GameData where
  game_id : String
  game_date : Int
  game_status : String
  home_score_total : Option Int
  visitor_score_total : Option Int
  is_final : Bool
  deriving Repr, DecidableEq

/-- One `api_tracker.record_request(...)` invocation. -/
structure UsageRecord where
  league : String
  endpoint : String
  success : Bool
  error_message : Option String
  deriving Repr, DecidableEq

/-- The mutable state touched by a poll attempt. -/
structure PollState where
  db : List Game
  history : String → List Int
  daily_usage : String → Nat
  usage_log : List UsageRecord
  collector_calls : List String

/-- The filter of `_update_live_games` and `upsert_game`:
`Game.league == league, Game.game_id == game_id`. -/
def gameKeyMatches (league gid : String) (g : Game) : Bool :=
  g.league == league && g.game_id == gid

/-- The update loop over `game_data.items()`: every present (non-`None`)
value overwrites the matching column; `league` was set to the polled
league beforehand. -/
def applyData (league : String) (d : GameData) (g : Game) : Game :=
  { league := league
    game_id := d.game_id
    game_date := d.game_date
    game_status := d.game_status
    is_final := d.is_final
    home_score_total :=
      match d.home_score_total with
      | some v => some v
      | none => g.home_score_total
    visitor_score_total :=
      match d.visitor_score_total with
      | some v => some v
      | none => g.visitor_score_total }

/-- `Game(**game_data)` on the create path of `upsert_game`. -/
def newGame (league : String) (d : GameData) : Game :=
  { league := league
    game_id := d.game_id
    game_date := d.game_date
    game_status := d.game_status
    is_final := d.is_final
    home_score_total := d.home_score_total
    visitor_score_total := d.visitor_score_total }

/-- Apply `f` to the first list element satisfying `p` (the row returned
by `.first()`), leaving the rest unchanged. -/
def updateFirst (p : Game → Bool) (f : Game → Game) : List Game → List Game
  | [] => []
  | g :: gs => if p g then f g :: gs else g :: updateFirst p f gs

/-- One snapshot's reconciliation, keyed by `(league, game_id)`: update
the existing row if one matches, otherwise insert a new row. -/
def reconcileGame (league : String) (d : GameData) (db : List Game) :
    List Game :=
  if db.any (gameKeyMatches league d.game_id) then
    updateFirst (gameKeyMatches league d.game_id) (applyData league d) db
  else db ++ [newGame league d]

/-- `LivePoller._update_live_games`: reconcile each snapshot in order,
counting processed ones; `fails` is the per-snapshot exception oracle of
the `try/except ... continue` body (a failing snapshot is logged and
skipped, the rest of the batch continues). -/
def update_live_games (fails : GameData → Bool) (league : String) :
    List GameData → Nat × List Game → Nat × List Game
  | [], acc => acc
  | d :: ds, (n, db) =>
    if fails d then update_live_games fails league ds (n, db)
    else update_live_games fails league ds (n + 1, reconcileGame league d db)

/-- `AdaptivePollingManager.should_poll_today`: are there any non-final
games dated today, in any league. -/
def should_poll_today (db : List Game) (today : Int) : Bool :=
  decide (0 <
    (db.filter (fun g => g.game_date == today && g.is_final == false)).length)

/-- `api_tracker.record_request` plus its logged arguments: append the
timestamp to the league's deque, bump the daily counter, log the call. -/
def record_request_state (st : PollState) (league : String) (now : Int)
    (endpoint : String) (success : Bool) (err : Option String) : PollState :=
  { st with
    history := fun l =>
      if l == league then record_request now (st.history l) else st.history l
    daily_usage := fun l =>
      if l == league then st.daily_usage l + 1 else st.daily_usage l
    usage_log := st.usage_log ++ [⟨league, endpoint, success, err⟩] }

/-- `LivePoller._poll_league`: today pre-check, rate-limit check (whose
`_cleanup_old_requests` purges every league's deque), collector call,
usage recording and reconciliation.  Returns the updated-games count. -/
def poll_league (s : Settings)
    (collectors : String → Except String (List GameData))
    (fails : GameData → Bool) (now : Int) (today : Int) (league : String)
    (st : PollState) : Nat × PollState :=
  if should_poll_today st.db today = false then (0, st)
  else
    let hist := fun l => cleanup_old_requests now (st.history l)
    let st1 := { st with history := hist }
    if (hist league).length < s.get_max_requests_per_minute league then
      let st2 := { st1 with collector_calls := st1.collector_calls ++ [league] }
      match collectors league with
      | Except.ok live_games =>
        let st3 := record_request_state st2 league now "live_scores" true none
        let r := update_live_games fails league live_games (0, st3.db)
        (r.1, { st3 with db := r.2 })
      | Except.error e =>
        (0, record_request_state st2 league now "live_scores" false (some e))
    else (0, st1)

/-- The league loop of `LivePoller.poll_once`: poll each league in order,
collecting the per-league counts; `_poll_league` never raises in this
model, so the per-league `except` arm is vacuous. -/
def poll_once (s : Settings)
    (collectors : String → Except String (List GameData))
    (fails : GameData → Bool) (now : Int) (today : Int) :
    List String → PollState → List (String × Nat) × PollState
  | [], st => ([], st)
  | league :: rest, st =>
    let r := poll_league s collectors fails now today league st
    let rr := poll_once s collectors fails now today rest r.2
    ((league, r.1) :: rr.1, rr.2)

/-- One iteration of the `start_polling` loop, state effects only: when
the wall-clock time of day is outside every configured polling window the
loop sleeps 300 seconds without touching any league; otherwise it polls
every league. -/
def polling_cycle (s : Settings) (ranges : List String) (nowTod : Nat)
    (collectors : String → Except String (List GameData))
    (fails : GameData → Bool) (now : Int) (today : Int)
    (leagues : List String) (st : PollState) : PollState :=
  if should_poll_now ranges nowTod then
    (poll_once s collectors fails now today leagues st).2
  else st

/-! ## Reconciliation lemmas -/

theorem gameKeyMatches_applyData (league : String) (d : GameData) (g : Game) :
    gameKeyMatches league d.game_id (applyData league d g) = true := by
  simp [gameKeyMatches, applyData]

theorem gameKeyMatches_newGame (league : String) (d : GameData) :
    gameKeyMatches league d.game_id (newGame league d) = true := by
  simp [gameKeyMatches, newGame]

theorem applyData_idem (league : String) (d : GameData) (g : Game) :
    applyData league d (applyData league d g) = applyData league d g := by
  cases hh : d.home_score_total <;> cases hv : d.visitor_score_total <;>
    simp [applyData, hh, hv]

theorem applyData_newGame (league : String) (d : GameData) :
    applyData league d (newGame league d) = newGame league d := by
  cases hh : d.home_score_total <;> cases hv : d.visitor_score_total <;>
    simp [applyData, newGame, hh, hv]

theorem updateFirst_any (p : Game → Bool) (f : Game → Game)
    (hpf : ∀ g, p (f g) = true) :
    ∀ l : List Game, l.any p = true → (updateFirst p f l).any p = true := by
  intro l
  induction l with
  | nil => intro h; simp at h
  | cons g gs ih =>
    intro h
    by_cases hg : p g = true
    · simp [updateFirst, hg, hpf]
    · have hg2 : p g = false := by simpa using hg
      simp only [List.any_cons, hg2, Bool.false_or] at h
      simp [updateFirst, hg2, ih h]

theorem updateFirst_idem (p : Game → Bool) (f : Game → Game)
    (hpf : ∀ g, p (f g) = true) (hff : ∀ g, f (f g) = f g) :
    ∀ l : List Game,
      updateFirst p f (updateFirst p f l) = updateFirst p f l := by
  intro l
  induction l with
  | nil => rfl
  | cons g gs ih =>
    by_cases hg : p g = true
    · simp [updateFirst, hg, hpf, hff]
    · have hg2 : p g = false := by simpa using hg
      simp [updateFirst, hg2, ih]

theorem updateFirst_append_none (p : Game → Bool) (f : Game → Game) :
    ∀ l1 l2 : List Game, (∀ g ∈ l1, p g = false) →
      updateFirst p f (l1 ++ l2) = l1 ++ updateFirst p f l2 := by
  intro l1
  induction l1 with
  | nil => intro l2 _; rfl
  | cons g gs ih =>
    intro l2 hall
    have hg := hall g (by simp)
    simp [updateFirst, hg, ih l2 (fun x hx => hall x (by simp [hx]))]

theorem find_updateFirst (p : Game → Bool) (f : Game → Game)
    (hpf : ∀ g, p (f g) = true) :
    ∀ l : List Game, l.any p = true →
      ∃ g0, g0 ∈ l ∧ (updateFirst p f l).find? p = some (f g0) := by
  intro l
  induction l with
  | nil => intro h; simp at h
  | cons g gs ih =>
    intro h
    by_cases hg : p g = true
    · have h1 : updateFirst p f (g :: gs) = f g :: gs := by
        simp [updateFirst, hg]
      refine ⟨g, by simp, ?_⟩
      rw [h1, List.find?_cons_of_pos _ (hpf g)]
    · have hg2 : p g = false := by simpa using hg
      simp only [List.any_cons, hg2, Bool.false_or] at h
      obtain ⟨g0, hmem, hfind⟩ := ih h
      have h1 : updateFirst p f (g :: gs) = g :: updateFirst p f gs := by
        simp [updateFirst, hg2]
      refine ⟨g0, by simp [hmem], ?_⟩
      rw [h1, List.find?_cons_of_neg _ (by simp [hg2]), hfind]

theorem find_append_none (p : Game → Bool) :
    ∀ l1 l2 : List Game, (∀ g ∈ l1, p g = false) →
      (l1 ++ l2).find? p = l2.find? p := by
  intro l1
  induction l1 with
  | nil => intro l2 _; rfl
  | cons g gs ih =>
    intro l2 hall
    rw [List.cons_append,
      List.find?_cons_of_neg _ (by simp [hall g (by simp)])]
    exact ih l2 (fun x hx => hall x (by simp [hx]))

theorem find_reconcileGame (league : String) (d : GameData) (db : List Game) :
    ∃ g0 : Game,
      (reconcileGame league d db).find? (gameKeyMatches league d.game_id) =
        some (applyData league d g0) := by
  by_cases h : db.any (gameKeyMatches league d.game_id) = true
  · obtain ⟨g0, _, hfind⟩ :=
      find_updateFirst _ _ (gameKeyMatches_applyData league d) db h
    refine ⟨g0, ?_⟩
    unfold reconcileGame
    rw [if_pos h]
    exact hfind
  · have hf : db.any (gameKeyMatches league d.game_id) = false := by
      simpa using h
    have hall : ∀ g ∈ db, gameKeyMatches league d.game_id g = false :=
      fun g hgmem => by simpa using List.any_eq_false.mp hf g hgmem
    refine ⟨newGame league d, ?_⟩
    unfold reconcileGame
    rw [if_neg (by simp [hf]), find_append_none _ db _ hall,
      List.find?_cons_of_pos _ (gameKeyMatches_newGame league d),
      applyData_newGame]

theorem reconcileGame_idem (league : String) (d : GameData) (db : List Game) :
    reconcileGame league d (reconcileGame league d db) =
      reconcileGame league d db := by
  by_cases h : db.any (gameKeyMatches league d.game_id) = true
  · have h1 : reconcileGame league d db =
        updateFirst (gameKeyMatches league d.game_id) (applyData league d)
          db := by
      unfold reconcileGame; rw [if_pos h]
    have h2 := updateFirst_any _ _ (gameKeyMatches_applyData league d) db h
    rw [h1]
    unfold reconcileGame
    rw [if_pos h2]
    exact updateFirst_idem _ _ (gameKeyMatches_applyData league d)
      (applyData_idem league d) _
  · have hf : db.any (gameKeyMatches league d.game_id) = false := by
      simpa using h
    have hall : ∀ g ∈ db, gameKeyMatches league d.game_id g = false :=
      fun g hgmem => by simpa using List.any_eq_false.mp hf g hgmem
    have h1 : reconcileGame league d db = db ++ [newGame league d] := by
      unfold reconcileGame; rw [if_neg (by simp [hf])]
    have h2 : (db ++ [newGame league d]).any
        (gameKeyMatches league d.game_id) = true := by
      simp [List.any_append, gameKeyMatches_newGame league d]
    rw [h1]
    unfold reconcileGame
    rw [if_pos h2, updateFirst_append_none _ _ db _ hall]
    simp [updateFirst, gameKeyMatches_newGame league d,
      applyData_newGame league d]

/-- C8: Idempotent reconciliation.  Upserting the same snapshot twice
leaves the store exactly as upserting it once (hence no second row for
the key), the row found under the `(league, game_id)` key carries the
snapshot's mutable fields, and a snapshot on which reconciliation fails
is skipped without affecting the processing of the rest of the batch. -/
theorem reconciliation_idempotent :
    (∀ (league : String) (d : GameData) (db : List Game),
        reconcileGame league d (reconcileGame league d db) =
          reconcileGame league d db) ∧
    (∀ (league : String) (d : GameData) (db : List Game),
        ∃ g : Game,
          (reconcileGame league d db).find?
              (gameKeyMatches league d.game_id) = some g ∧
          g.game_status = d.game_status ∧ g.is_final = d.is_final ∧
          (d.home_score_total.isSome →
            g.home_score_total = d.home_score_total) ∧
          (d.visitor_score_total.isSome →
            g.visitor_score_total = d.visitor_score_total)) ∧
    (∀ (fails : GameData → Bool) (league : String)
        (ds1 ds2 : List GameData) (d : GameData) (acc : Nat × List Game),
        fails d = true →
        update_live_games fails league (ds1 ++ d :: ds2) acc =
          update_live_games fails league (ds1 ++ ds2) acc) := by
  refine ⟨reconcileGame_idem, fun league d db => ?_, ?_⟩
  · obtain ⟨g0, hfind⟩ := find_reconcileGame league d db
    refine ⟨applyData league d g0, hfind, rfl, rfl, ?_, ?_⟩
    · intro hs
      cases hh : d.home_score_total with
      | none => rw [hh] at hs; cases hs
      | some v => simp [applyData, hh]
    · intro hs
      cases hv : d.visitor_score_total with
      | none => rw [hv] at hs; cases hs
      | some v => simp [applyData, hv]
  · intro fails league ds1 ds2 d acc hfail
    induction ds1 generalizing acc with
    | nil =>
      obtain ⟨n, db⟩ := acc
      simp [update_live_games, hfail]
    | cons e es ih =>
      obtain ⟨n, db⟩ := acc
      by_cases he : fails e = true
      · simp [update_live_games, he, ih]
      · have he2 : fails e = false := by simpa using he
        simp [update_live_games, he2, ih]

/-- Witness for `reconciliation_idempotent`: a failing middle snapshot in
a three-snapshot batch is skipped, the outer two reconcile as if it were
absent. -/
theorem reconciliation_idempotent_witness :
    update_live_games (fun d => d.game_id == "bad") "NHL"
        ([⟨"g1", 0, "in_progress", some 1, some 0, false⟩] ++
          ⟨"bad", 0, "in_progress", none, none, false⟩ ::
            [⟨"g2", 0, "final", some 3, some 2, true⟩]) (0, []) =
      update_live_games (fun d => d.game_id == "bad") "NHL"
        ([⟨"g1", 0, "in_progress", some 1, some 0, false⟩] ++
          [⟨"g2", 0, "final", some 3, some 2, true⟩]) (0, []) :=
  reconciliation_idempotent.2.2 _ "NHL" _ _ _ _ (by decide)

/-! ## Poll-attempt theorems -/

/-- C7: Collector-failure handling.  When the pre-check and the budget
check pass, a collector error still records the attempt (timestamp
appended to the league's deque, a failure record with the error message
in the usage log), yields 0, and leaves the store untouched; a collector
success records the attempt the same way; and `poll_once` always
continues with the remaining leagues from the resulting state, so one
league's failure never aborts another league's poll. -/
theorem collector_failure_isolated (s : Settings)
    (collectors : String → Except String (List GameData))
    (fails : GameData → Bool) (now today : Int) (league : String)
    (st : PollState)
    (htoday : should_poll_today st.db today = true)
    (hbudget : (cleanup_old_requests now (st.history league)).length <
        s.get_max_requests_per_minute league) :
    (∀ e, collectors league = Except.error e →
      (poll_league s collectors fails now today league st).1 = 0 ∧
      (poll_league s collectors fails now today league st).2.usage_log =
        st.usage_log ++ [⟨league, "live_scores", false, some e⟩] ∧
      (poll_league s collectors fails now today league st).2.history league =
        cleanup_old_requests now (st.history league) ++ [now] ∧
      (poll_league s collectors fails now today league st).2.db = st.db) ∧
    (∀ gs, collectors league = Except.ok gs →
      (poll_league s collectors fails now today league st).2.usage_log =
        st.usage_log ++ [⟨league, "live_scores", true, none⟩] ∧
      (poll_league s collectors fails now today league st).2.history league =
        cleanup_old_requests now (st.history league) ++ [now]) ∧
    (∀ rest, (poll_once s collectors fails now today (league :: rest) st).1 =
      (league, (poll_league s collectors fails now today league st).1) ::
        (poll_once s collectors fails now today rest
          (poll_league s collectors fails now today league st).2).1) := by
  refine ⟨fun e herr => ?_, fun gs hok => ?_, fun rest => rfl⟩
  · simp [poll_league, htoday, hbudget, herr, record_request_state,
      record_request]
  · simp [poll_league, htoday, hbudget, hok, record_request_state,
      record_request]

/-- Witness for `collector_failure_isolated`: the spec's scenario — the
NHL collector raises a timeout, NHL returns 0 with a failure record, and
MLB polled next in the same cycle still updates its game normally. -/
theorem collector_failure_isolated_witness :
    (poll_league defaultSettings
        (fun l => if l == "NHL" then Except.error "timeout"
          else Except.ok [⟨"m1", 0, "in_progress", some 3, some 1, false⟩])
        (fun _ => false) 0 0 "NHL"
        ⟨[⟨"MLB", "m1", 0, "in_progress", some 2, some 1, false⟩],
          fun _ => [], fun _ => 0, [], []⟩).1 = 0 ∧
    (poll_league defaultSettings
        (fun l => if l == "NHL" then Except.error "timeout"
          else Except.ok [⟨"m1", 0, "in_progress", some 3, some 1, false⟩])
        (fun _ => false) 0 0 "NHL"
        ⟨[⟨"MLB", "m1", 0, "in_progress", some 2, some 1, false⟩],
          fun _ => [], fun _ => 0, [], []⟩).2.usage_log =
      [] ++ [⟨"NHL", "live_scores", false, some "timeout"⟩] ∧
    (poll_once defaultSettings
        (fun l => if l == "NHL" then Except.error "timeout"
          else Except.ok [⟨"m1", 0, "in_progress", some 3, some 1, false⟩])
        (fun _ => false) 0 0 ["NHL", "MLB"]
        ⟨[⟨"MLB", "m1", 0, "in_progress", some 2, some 1, false⟩],
          fun _ => [], fun _ => 0, [], []⟩).1 =
      [("NHL", 0), ("MLB", 1)] := by
  have h := collector_failure_isolated defaultSettings
    (fun l => if l == "NHL" then Except.error "timeout"
      else Except.ok [⟨"m1", 0, "in_progress", some 3, some 1, false⟩])
    (fun _ => false) 0 0 "NHL"
    ⟨[⟨"MLB", "m1", 0, "in_progress", some 2, some 1, false⟩],
      fun _ => [], fun _ => 0, [], []⟩ (by decide) (by decide)
  have h2 := (h.1 "timeout" rfl)
  exact ⟨h2.1, h2.2.1, by decide⟩

/-- C2: evaluation at the failing input.  The store holds a single
non-final MLB game dated today and no NBA game at all, yet polling NBA
passes the `should_poll_today` pre-check (which ignores the league),
invokes the NBA collector and consumes NBA rate budget — the pre-check is
store-wide, not about the league being polled. -/
theorem nba_polled_without_nba_games :
    List.filter
        (fun g : Game => g.league == "NBA" && g.game_date == (0 : Int) &&
          g.is_final == false)
        [⟨"MLB", "m1", 0, "scheduled", none, none, false⟩] = [] ∧
    should_poll_today [⟨"MLB", "m1", 0, "scheduled", none, none, false⟩] 0
      = true ∧
    (poll_league defaultSettings (fun _ => Except.ok []) (fun _ => false)
        0 0 "NBA"
        ⟨[⟨"MLB", "m1", 0, "scheduled", none, none, false⟩],
          fun _ => [], fun _ => 0, [], []⟩).2.collector_calls = ["NBA"] ∧
    (poll_league defaultSettings (fun _ => Except.ok []) (fun _ => false)
        0 0 "NBA"
        ⟨[⟨"MLB", "m1", 0, "scheduled", none, none, false⟩],
          fun _ => [], fun _ => 0, [], []⟩).2.history "NBA" = [0] :=
  ⟨by decide, by decide, by decide, by decide⟩

/-- C4 counterexample: at a wall-clock time outside every configured
polling window (03:00 against the single range 12:00-13:00), a direct
poll attempt — which takes no time-of-day input at all — still invokes
the collector, consumes rate budget and records usage, refuting the claim
that a poll attempt outside the window has zero side effects. -/
theorem poll_outside_window_counterexample :
    should_poll_now ["12:00-13:00"] (3 * 3600) = false ∧
    (poll_league defaultSettings (fun _ => Except.ok []) (fun _ => false)
        0 0 "NBA"
        ⟨[⟨"NBA", "n1", 0, "in_progress", some 1, some 0, false⟩],
          fun _ => [], fun _ => 0, [], []⟩).2.collector_calls = ["NBA"] ∧
    (poll_league defaultSettings (fun _ => Except.ok []) (fun _ => false)
        0 0 "NBA"
        ⟨[⟨"NBA", "n1", 0, "in_progress", some 1, some 0, false⟩],
          fun _ => [], fun _ => 0, [], []⟩).2.usage_log =
      [⟨"NBA", "live_scores", true, none⟩] :=
  ⟨by decide, by decide, by decide⟩

/-- C4 (amended): the polling window is enforced by the polling loop, not
by a single poll attempt: when the time of day is outside every
configured window, one loop iteration sleeps and leaves the entire state
(store, budget, usage, collector trace) unchanged without touching any
league. -/
theorem window_gate_enforced_by_loop (s : Settings) (ranges : List String)
    (nowTod : Nat) (collectors : String → Except String (List GameData))
    (fails : GameData → Bool) (now today : Int) (leagues : List String)
    (st : PollState) (hout : should_poll_now ranges nowTod = false) :
    polling_cycle s ranges nowTod collectors fails now today leagues st
      = st := by
  simp [polling_cycle, hout]

/-- Witness for `window_gate_enforced_by_loop` at 03:00 with the range
12:00-13:00 and a concrete state. -/
theorem window_gate_enforced_by_loop_witness :
    polling_cycle defaultSettings ["12:00-13:00"] (3 * 3600)
        (fun _ => Except.ok []) (fun _ => false) 0 0 ["NBA"]
        ⟨[⟨"NBA", "n1", 0, "in_progress", some 1, some 0, false⟩],
          fun _ => [], fun _ => 0, [], []⟩ =
      ⟨[⟨"NBA", "n1", 0, "in_progress", some 1, some 0, false⟩],
        fun _ => [], fun _ => 0, [], []⟩ :=
  window_gate_enforced_by_loop defaultSettings ["12:00-13:00"] (3 * 3600)
    (fun _ => Except.ok []) (fun _ => false) 0 0 ["NBA"]
    ⟨[⟨"NBA", "n1", 0, "in_progress", some 1, some 0, false⟩],
      fun _ => [], fun _ => 0, [], []⟩ (by decide)

/-- The store-wide pre-check the code does enforce: when no league at all
has a non-final game dated today, a poll attempt for any league returns 0
and leaves the state completely unchanged. -/
theorem poll_skips_when_no_games_today (s : Settings)
    (collectors : String → Except String (List GameData))
    (fails : GameData → Bool) (now today : Int) (league : String)
    (st : PollState) (hnone : should_poll_today st.db today = false) :
    poll_league s collectors fails now today league st = (0, st) := by
  simp [poll_league, hnone]

/-- Witness for `poll_skips_when_no_games_today`: a store whose only game
is dated yesterday. -/
theorem poll_skips_when_no_games_today_witness :
    poll_league defaultSettings (fun _ => Except.ok []) (fun _ => false)
        100 1 "NBA"
        ⟨[⟨"NBA", "n1", 0, "in_progress", some 1, some 0, false⟩],
          fun _ => [], fun _ => 0, [], []⟩ =
      (0, ⟨[⟨"NBA", "n1", 0, "in_progress", some 1, some 0, false⟩],
        fun _ => [], fun _ => 0, [], []⟩) :=
  poll_skips_when_no_games_today defaultSettings (fun _ => Except.ok [])
    (fun _ => false) 100 1 "NBA"
    ⟨[⟨"NBA", "n1", 0, "in_progress", some 1, some 0, false⟩],
      fun _ => [], fun _ => 0, [], []⟩ (by decide)

end SportsPuff
